import Mathlib

/-!
Verification of the passport-declaration service (two variants:
a ReportLab structured-layout handler in `app/api/passport.py` and an
xhtml2pdf template handler in `main.py`) against its specification.

The embedding models: JSON request bodies, pydantic validation of the
11-field form, filename generation (timestamp and uuid-hex tokens),
the signature data-URI split and base64 decoding, the `format_date`
helper (Python `strptime`/`strftime` with format `%Y-%m-%d` and
`%d %B, %Y`), the two submission handlers as state transformers over a
file store, and the download/view retrieval handlers.
-/

namespace PassportITS

/-- Bytes of a file, modelled as a list of byte values. -/
abbrev Bytes := List Nat

/-- JSON values, as needed for request bodies and responses. -/
inductive JValue where
  | s (v : String)
  | num (n : Int)
  | obj (fields : List (String × JValue))

mutual

/-- Does some string leaf of the JSON value equal `target`? -/
def jvalueMentions (target : String) : JValue → Bool
  | JValue.s v => v == target
  | JValue.num _ => false
  | JValue.obj fs => fieldsMention target fs

/-- Does some string leaf in the field list equal `target`? -/
def fieldsMention (target : String) : List (String × JValue) → Bool
  | [] => false
  | (_, v) :: rest => jvalueMentions target v || fieldsMention target rest

end

/-- The on-disk file store: an association list from paths to bytes.
New writes are consed at the front, so `lookup` sees the newest write,
modelling overwrite semantics of `open(path, "wb")`. -/
structure Store where
  files : List (String × Bytes)

/-- Read the current content of a path, `none` when the file is absent. -/
def Store.look (st : Store) (path : String) : Option Bytes :=
  st.files.lookup path

/-- Write (create or overwrite) a file. -/
def Store.write (st : Store) (path : String) (b : Bytes) : Store :=
  ⟨(path, b) :: st.files⟩

/-- The empty file store. -/
def emptyStore : Store := ⟨[]⟩

/-- HTTP responses as the handlers produce them: a JSON success body, a
JSON error with a status code, or a file response with a media type and
an optional attachment display name. -/
inductive Response where
  | ok (body : JValue)
  | error (status : Nat) (detail : String)
  | file (bytes : Bytes) (mediaType : String) (displayName : Option String)

/-- The HTTP status code of a response. -/
def Response.status : Response → Nat
  | Response.ok _ => 200
  | Response.error st _ => st
  | Response.file _ _ _ => 200

/-- Whether a status code is a client error (4xx). -/
def is4xx (n : Nat) : Prop := 400 ≤ n ∧ n < 500

instance (n : Nat) : Decidable (is4xx n) := by
  unfold is4xx; infer_instance

/-- The Declaration Record: `PassportDeclaration` in `main.py`,
`PassportForm` in `app/api/passport.py` (identical field lists). -/
structure PassportDeclaration where
  date : String
  designation : String
  joiningDate : String
  nationality : String
  passportNumber : String
  issueLocation : String
  issueDate : String
  expiryDate : String
  employeeName : String
  employeeCode : String
  signature : String
deriving DecidableEq

/-- The 11 required field names of the form schema. -/
def requiredFields : List String :=
  ["date", "designation", "joiningDate", "nationality", "passportNumber",
   "issueLocation", "issueDate", "expiryDate", "employeeName",
   "employeeCode", "signature"]

/-- Look a field up in a JSON object body. -/
def lookupJ (body : List (String × JValue)) (name : String) : Option JValue :=
  body.lookup name

/-- Pydantic acceptance test for one field: present and a string. -/
def fieldOk (body : List (String × JValue)) (name : String) : Bool :=
  match lookupJ body name with
  | some (JValue.s _) => true
  | _ => false

/-- Extract a field's string value (only meaningful when `fieldOk`). -/
def getStr (body : List (String × JValue)) (name : String) : String :=
  match lookupJ body name with
  | some (JValue.s v) => v
  | _ => ""

/-- Pydantic validation of the request body against the 11-field schema:
collects every missing or non-string field; succeeds and builds the
record exactly when there are none. -/
def validate (body : List (String × JValue)) :
    Except (List String) PassportDeclaration :=
  if (requiredFields.filter (fun n => !(fieldOk body n))).isEmpty then
    Except.ok
      { date := getStr body "date"
        designation := getStr body "designation"
        joiningDate := getStr body "joiningDate"
        nationality := getStr body "nationality"
        passportNumber := getStr body "passportNumber"
        issueLocation := getStr body "issueLocation"
        issueDate := getStr body "issueDate"
        expiryDate := getStr body "expiryDate"
        employeeName := getStr body "employeeName"
        employeeCode := getStr body "employeeCode"
        signature := getStr body "signature" }
  else Except.error (requiredFields.filter (fun n => !(fieldOk body n)))

/-- Render a validation error's offending-field list into the error
message surfaced to the caller. -/
def renderErrs : List String → String
  | [] => ""
  | n :: rest => n ++ "; " ++ renderErrs rest

/-- `form.dict()`: the record echoed back as a JSON object. -/
def declToJson (d : PassportDeclaration) : JValue :=
  JValue.obj
    [("date", JValue.s d.date),
     ("designation", JValue.s d.designation),
     ("joiningDate", JValue.s d.joiningDate),
     ("nationality", JValue.s d.nationality),
     ("passportNumber", JValue.s d.passportNumber),
     ("issueLocation", JValue.s d.issueLocation),
     ("issueDate", JValue.s d.issueDate),
     ("expiryDate", JValue.s d.expiryDate),
     ("employeeName", JValue.s d.employeeName),
     ("employeeCode", JValue.s d.employeeCode),
     ("signature", JValue.s d.signature)]

/-- The decimal digit character for `n` (meaningful for `n ≤ 9`;
larger inputs clamp to `'9'`, matching how it is only ever applied
to values below 10). -/
def digitChar (n : Nat) : Char :=
  if n = 0 then '0' else if n = 1 then '1' else if n = 2 then '2'
  else if n = 3 then '3' else if n = 4 then '4' else if n = 5 then '5'
  else if n = 6 then '6' else if n = 7 then '7' else if n = 8 then '8'
  else '9'

/-- Worker for `natToDigits`, structurally recursive on a fuel bound so
that it evaluates inside the kernel. -/
def natToDigitsAux : Nat → Nat → List Char
  | 0, _ => []
  | fuel + 1, n =>
    if n < 10 then [digitChar n]
    else natToDigitsAux fuel (n / 10) ++ [digitChar (n % 10)]

/-- Decimal digits of a natural number, most significant first. -/
def natToDigits (n : Nat) : List Char := natToDigitsAux (n + 1) n

/-- Decimal rendering of a natural number. -/
def natToString (n : Nat) : String := String.mk (natToDigits n)

/-- Zero-pad the decimal rendering of `n` to width `k`
(`strftime` zero-padded fields). -/
def pad (k n : Nat) : String :=
  String.mk (List.replicate (k - (natToDigits n).length) '0' ++ natToDigits n)

/-- A wall-clock instant as `datetime.now()` delivers it. -/
structure Timestamp where
  year : Nat
  month : Nat
  day : Nat
  hour : Nat
  minute : Nat
  second : Nat
deriving DecidableEq

/-- `strftime('%Y%m%d%H%M%S')`: the compact timestamp token of the
structured variant's filenames. -/
def formatCompact (ts : Timestamp) : String :=
  pad 4 ts.year ++ pad 2 ts.month ++ pad 2 ts.day ++ pad 2 ts.hour ++
    pad 2 ts.minute ++ pad 2 ts.second

/-- `strftime('%Y%m%d')`: the date token of the download display name. -/
def formatDateCompact (ts : Timestamp) : String :=
  pad 4 ts.year ++ pad 2 ts.month ++ pad 2 ts.day

/-- Structured-variant filename:
`f"passport_{form.employeeCode}_{now:%Y%m%d%H%M%S}.pdf"`. -/
def structuredFilename (code : String) (ts : Timestamp) : String :=
  "passport_" ++ code ++ "_" ++ formatCompact ts ++ ".pdf"

/-- Template-variant filename:
`f"passport_declaration_{employeeCode}_{uuid4().hex[:8]}.pdf"`;
`uuidHex` stands for `uuid4().hex` (32 lowercase hex characters). -/
def templateFilename (code : String) (uuidHex : String) : String :=
  "passport_declaration_" ++ code ++ "_" ++
    String.mk (uuidHex.data.take 8) ++ ".pdf"

/-- Attachment display name used by `/download/{filename}`:
`f"passport_declaration_{now:%Y%m%d}.pdf"`. -/
def downloadDisplayName (now : Timestamp) : String :=
  "passport_declaration_" ++ formatDateCompact now ++ ".pdf"

/-- Python `str.split(sep)` worker: `acc` holds the current fragment's
characters in reverse. -/
def splitAux (sep : Char) : List Char → List Char → List String
  | [], acc => [String.mk acc.reverse]
  | c :: rest, acc =>
    if c = sep then String.mk acc.reverse :: splitAux sep rest []
    else splitAux sep rest (c :: acc)

/-- Python `s.split(sep)` for a one-character separator. -/
def pythonSplit (sep : Char) (s : String) : List String :=
  splitAux sep s.data []

/-- `form.signature.split(",")[1]`: `none` models the `IndexError`
raised when the list has fewer than two elements. -/
def extractSignaturePayload (s : String) : Option String :=
  (pythonSplit ',' s).get? 1

/-- The 6-bit value of a standard-base64 alphabet character. -/
def b64Val (c : Char) : Option Nat :=
  if 'A' ≤ c ∧ c ≤ 'Z' then some (c.toNat - 65)
  else if 'a' ≤ c ∧ c ≤ 'z' then some (c.toNat - 71)
  else if '0' ≤ c ∧ c ≤ '9' then some (c.toNat - 48 + 52)
  else if c = '+' then some 62
  else if c = '/' then some 63
  else none

/-- Alphabet or padding character (the characters `base64.b64decode`
keeps; all others are discarded before decoding). -/
def b64Keep (c : Char) : Bool := (b64Val c).isSome || c == '='

/-- Reassemble bytes from 6-bit values; a trailing group of three gives
two bytes, of two gives one byte, and a lone value is invalid. -/
def b64Quanta : List Nat → Option Bytes
  | [] => some []
  | [_] => none
  | [v1, v2] => some [v1 * 4 + v2 / 16]
  | [v1, v2, v3] => some [v1 * 4 + v2 / 16, v2 % 16 * 16 + v3 / 4]
  | v1 :: v2 :: v3 :: v4 :: rest =>
    (b64Quanta rest).map
      (fun bs => (v1 * 4 + v2 / 16) :: ((v2 % 16 * 16 + v3 / 4) ::
        ((v3 % 4 * 64 + v4) :: bs)))

/-- `base64.b64decode`: discard characters outside the alphabet,
require a length that is a multiple of four, strip at most two trailing
padding characters, then decode; `none` models `binascii.Error`. -/
def b64decode (s : String) : Option Bytes :=
  let cs := s.data.filter b64Keep
  if cs.length % 4 ≠ 0 then none
  else
    let body := cs.takeWhile (fun c => !(c == '='))
    let padCs := cs.drop body.length
    if padCs.length ≤ 2 ∧ padCs.all (fun c => c == '=') then
      match body.mapM b64Val with
      | some vals => b64Quanta vals
      | none => none
    else none

/-- Numeric value of a decimal digit character. -/
def digitVal (c : Char) : Nat := c.toNat - 48

/-- `%Y` of `strptime`: exactly four decimal digits. -/
def parseYear4 : List Char → Option (Nat × List Char)
  | a :: b :: c :: d :: rest =>
    if a.isDigit ∧ b.isDigit ∧ c.isDigit ∧ d.isDigit then
      some (1000 * digitVal a + 100 * digitVal b + 10 * digitVal c +
        digitVal d, rest)
    else none
  | _ => none

/-- `%m` of `strptime`: the regex `1[0-2]|0[1-9]|[1-9]`. -/
def parseMonth : List Char → Option (Nat × List Char)
  | '1' :: c :: rest =>
    if '0' ≤ c ∧ c ≤ '2' then some (10 + digitVal c, rest)
    else some (1, c :: rest)
  | '0' :: c :: rest =>
    if '1' ≤ c ∧ c ≤ '9' then some (digitVal c, rest) else none
  | c :: rest =>
    if '1' ≤ c ∧ c ≤ '9' then some (digitVal c, rest) else none
  | [] => none

/-- `%d` of `strptime`: the regex `3[01]|[12]\d|0[1-9]|[1-9]`. -/
def parseDay : List Char → Option (Nat × List Char)
  | '3' :: c :: rest =>
    if '0' ≤ c ∧ c ≤ '1' then some (30 + digitVal c, rest)
    else some (3, c :: rest)
  | '0' :: c :: rest =>
    if '1' ≤ c ∧ c ≤ '9' then some (digitVal c, rest) else none
  | '1' :: c :: rest =>
    if c.isDigit then some (10 + digitVal c, rest) else some (1, c :: rest)
  | '2' :: c :: rest =>
    if c.isDigit then some (20 + digitVal c, rest) else some (2, c :: rest)
  | c :: rest =>
    if '1' ≤ c ∧ c ≤ '9' then some (digitVal c, rest) else none
  | [] => none

/-- Gregorian leap year, as `datetime` validates day-of-month. -/
def isLeap (y : Nat) : Bool :=
  (y % 4 == 0 && y % 100 != 0) || y % 400 == 0

/-- Days in a month of a given year. -/
def daysInMonth (y m : Nat) : Nat :=
  if m = 2 then (if isLeap y then 29 else 28)
  else if m = 4 ∨ m = 6 ∨ m = 9 ∨ m = 11 then 30
  else 31

/-- `datetime.strptime(s, "%Y-%m-%d")`: match the whole string against
year, `-`, month, `-`, day, then validate the day against the month and
the year against `MINYEAR = 1`; `none` models the `ValueError`. -/
def strptimeYMD (s : String) : Option (Nat × Nat × Nat) :=
  match parseYear4 s.data with
  | none => none
  | some (y, rest1) =>
    match rest1 with
    | '-' :: rest2 =>
      match parseMonth rest2 with
      | none => none
      | some (m, rest3) =>
        match rest3 with
        | '-' :: rest4 =>
          match parseDay rest4 with
          | none => none
          | some (d, rest5) =>
            if rest5 = [] ∧ 1 ≤ y ∧ 1 ≤ d ∧ d ≤ daysInMonth y m then
              some (y, m, d)
            else none
        | _ => none
    | _ => none

/-- Full month name, as `strftime('%B')` renders it in the C locale. -/
def monthName (m : Nat) : String :=
  if m = 1 then "January" else if m = 2 then "February"
  else if m = 3 then "March" else if m = 4 then "April"
  else if m = 5 then "May" else if m = 6 then "June"
  else if m = 7 then "July" else if m = 8 then "August"
  else if m = 9 then "September" else if m = 10 then "October"
  else if m = 11 then "November" else "December"

/-- `strftime("%d %B, %Y")`: zero-padded day, full month name, year
(the year unpadded, as glibc renders `%Y`). -/
def formatLong (y m d : Nat) : String :=
  pad 2 d ++ " " ++ monthName m ++ ", " ++ natToString y

/-- `format_date` from `generate_pdf_html` in `main.py`: reformat a
`%Y-%m-%d` date into the long form, passing unparseable input through
unchanged. -/
def format_date (s : String) : String :=
  match strptimeYMD s with
  | some (y, m, d) => formatLong y m d
  | none => s

/-- Outcome of `pisa.CreatePDF(html, dest=f)`: the engine writes
`bytes` to the already-opened destination file and reports an error
flag (`pisa_status.err`). -/
structure PisaOutcome where
  err : Bool
  bytes : Bytes

/-- Outcome of `SimpleDocTemplate.build(story)`: either the finished
document bytes, or an exception. ReportLab's canvas writes the output
file only in `save()` at the end of a successful build, so a failing
build leaves no file on disk. -/
inductive BuildOutcome where
  | ok (bytes : Bytes)
  | fail (msg : String)

/-- `submit_passport_declaration` in `main.py` (template variant):
validate, generate the filename from the employee code and the first 8
characters of `uuid4().hex`, open the output file and run xhtml2pdf
into it, then answer with the filename and relative links. A pydantic
`ValidationError` and a reported engine error are both caught by the
blanket `except` and surface as a 500; the output file is created
before the engine runs, so it exists in both engine outcomes. -/
def submitTemplate (store : Store) (body : List (String × JValue))
    (uuidHex : String) (pisa : PisaOutcome) : Response × Store :=
  match validate body with
  | Except.error errs =>
    (Response.error 500 ("Error generating PDF: " ++ renderErrs errs), store)
  | Except.ok decl =>
    let filename := templateFilename decl.employeeCode uuidHex
    let filepath := "pdf_files/" ++ filename
    let store1 := store.write filepath pisa.bytes
    if pisa.err then
      (Response.error 500 "Error generating PDF: PDF generation failed",
        store1)
    else
      (Response.ok (JValue.obj
        [("message", JValue.s "Passport declaration submitted successfully"),
         ("pdf_file", JValue.s filename),
         ("download_url", JValue.s ("/download/" ++ filename)),
         ("view_url", JValue.s ("/view/" ++ filename))]), store1)

/-- `create_passport` in `app/api/passport.py` (structured variant),
after FastAPI has already validated the body into `form`: generate the
timestamped filename, build the story, split and base64-decode the
signature (failures surface as a 500 with the store untouched, since
they happen before `doc.build`), then build the document and answer
with an echo of the form and the pdf path. A failing `doc.build` also
leaves the store untouched: the file is written only when the build
completes. -/
def createPassport (store : Store) (form : PassportDeclaration)
    (ts : Timestamp) (build : BuildOutcome) : Response × Store :=
  let filename := structuredFilename form.employeeCode ts
  let pdfPath := "pdf_output/" ++ filename
  match extractSignaturePayload form.signature with
  | none => (Response.error 500 "list index out of range", store)
  | some payload =>
    match b64decode payload with
    | none => (Response.error 500 "Invalid base64-encoded string", store)
    | some _sig =>
      match build with
      | BuildOutcome.fail msg =>
        (Response.error 500 msg, store)
      | BuildOutcome.ok bytes =>
        (Response.ok (JValue.obj
          [("message",
            JValue.s "Form data received and professional PDF generated"),
           ("data", declToJson form),
           ("pdf_file", JValue.s pdfPath)]), store.write pdfPath bytes)

/-- The structured variant's full route: FastAPI validates the body
against `PassportForm` first, answering 422 with the offending fields
on failure, and only then invokes the handler. -/
def routeStructured (store : Store) (body : List (String × JValue))
    (ts : Timestamp) (build : BuildOutcome) : Response × Store :=
  match validate body with
  | Except.error errs => (Response.error 422 (renderErrs errs), store)
  | Except.ok form => createPassport store form ts build

/-- `download_pdf` in `main.py`: 404 when the file is absent from
`pdf_files`, otherwise a `FileResponse` of the stored bytes as
`application/pdf` with a date-stamped attachment display name. -/
def download_pdf (store : Store) (filename : String) (now : Timestamp) :
    Response :=
  match store.look ("pdf_files/" ++ filename) with
  | none => Response.error 404 "File not found"
  | some b =>
    Response.file b "application/pdf" (some (downloadDisplayName now))

/-- `view_pdf` in `main.py`: 404 when the file is absent, otherwise the
stored bytes inline as `application/pdf` with no attachment name. -/
def view_pdf (store : Store) (filename : String) : Response :=
  match store.look ("pdf_files/" ++ filename) with
  | none => Response.error 404 "File not found"
  | some b => Response.file b "application/pdf" none

/-- Lowercase hexadecimal digit, the alphabet of `uuid4().hex`. -/
def isHexLower (c : Char) : Bool := c.isDigit || ('a' ≤ c && c ≤ 'f')

/-- The zero-padded ISO-8601 rendering `YYYY-MM-DD` of a calendar date
(for years up to 9999), used to quantify over well-formed date inputs. -/
def isoDateString (y m d : Nat) : String :=
  String.mk [digitChar (y / 1000 % 10), digitChar (y / 100 % 10),
    digitChar (y / 10 % 10), digitChar (y % 10), '-',
    digitChar (m / 10), digitChar (m % 10), '-',
    digitChar (d / 10), digitChar (d % 10)]

/-- Does some string of the response (a success body's leaf or an error
detail) equal `target`? Used to test whether a response echoes a value. -/
def responseMentions (target : String) : Response → Bool
  | Response.ok j => jvalueMentions target j
  | Response.error _ detail => detail == target
  | Response.file _ _ _ => false

lemma data_mk (l : List Char) : (String.mk l).data = l := rfl

lemma mk_data (s : String) : String.mk s.data = s := rfl

lemma length_mk (l : List Char) : (String.mk l).length = l.length := rfl

lemma data_length (s : String) : s.data.length = s.length := rfl

lemma string_eq_of_data {a b : String} (h : a.data = b.data) : a = b := by
  cases a; cases b; exact congrArg String.mk h

lemma digitChar_isDigit (n : Nat) : (digitChar n).isDigit = true := by
  unfold digitChar
  repeat' split
  all_goals decide

lemma digitVal_digitChar {n : Nat} (h : n < 10) :
    digitVal (digitChar n) = n := by
  interval_cases n <;> decide

lemma natToDigitsAux_fuel : ∀ f1 f2 n, n < f1 → n < f2 →
    natToDigitsAux f1 n = natToDigitsAux f2 n := by
  intro f1
  induction f1 with
  | zero => intro f2 n h1; omega
  | succ g ih =>
    intro f2 n h1 h2
    cases f2 with
    | zero => omega
    | succ h =>
      by_cases h10 : n < 10
      · simp [natToDigitsAux, h10]
      · simp only [natToDigitsAux, if_neg h10]
        have hdiv : n / 10 < n := Nat.div_lt_self (by omega) (by omega)
        rw [ih h (n / 10) (by omega) (by omega)]

lemma natToDigits_lt10 {n : Nat} (h : n < 10) :
    natToDigits n = [digitChar n] := by
  simp [natToDigits, natToDigitsAux, h]

lemma natToDigits_ge10 {n : Nat} (h : ¬ n < 10) :
    natToDigits n = natToDigits (n / 10) ++ [digitChar (n % 10)] := by
  have hdiv : n / 10 < n := Nat.div_lt_self (by omega) (by omega)
  unfold natToDigits
  conv_lhs => rw [natToDigitsAux]
  rw [if_neg h]
  rw [natToDigitsAux_fuel n (n / 10 + 1) (n / 10) (by omega) (by omega)]

lemma natToDigits_len_le (k : Nat) : ∀ n, n < 10 ^ (k + 1) →
    (natToDigits n).length ≤ k + 1 := by
  induction k with
  | zero =>
    intro n hn
    have h10 : n < 10 := by simpa using hn
    simp [natToDigits_lt10 h10]
  | succ k ih =>
    intro n hn
    by_cases h1 : n < 10
    · simp [natToDigits_lt10 h1]
    · rw [natToDigits_ge10 h1]
      have hdiv : n / 10 < 10 ^ (k + 1) := by
        rw [Nat.div_lt_iff_lt_mul (by norm_num)]
        calc n < 10 ^ (k + 2) := hn
        _ = 10 ^ (k + 1) * 10 := by ring
      have := ih (n / 10) hdiv
      simp only [List.length_append, List.length_cons, List.length_nil]
      omega

lemma pad_length {k n : Nat} (h : (natToDigits n).length ≤ k) :
    (pad k n).length = k := by
  simp only [pad, length_mk, List.length_append, List.length_replicate]
  omega

lemma pad2_length {n : Nat} (h : n ≤ 99) : (pad 2 n).length = 2 := by
  refine pad_length ?_
  exact natToDigits_len_le 1 n (by omega)

lemma pad4_length {n : Nat} (h : n ≤ 9999) : (pad 4 n).length = 4 := by
  refine pad_length ?_
  exact natToDigits_len_le 3 n (by omega)

lemma natToDigits_all_digit (n : Nat) :
    (natToDigits n).all Char.isDigit = true := by
  induction n using Nat.strong_induction_on with
  | _ n ih =>
    by_cases h1 : n < 10
    · simp [natToDigits_lt10 h1, digitChar_isDigit]
    · rw [natToDigits_ge10 h1]
      have hrec := ih (n / 10) (Nat.div_lt_self (by omega) (by omega))
      simp [digitChar_isDigit, hrec]

lemma pad_all_digit (k n : Nat) : (pad k n).data.all Char.isDigit = true := by
  have hd := natToDigits_all_digit n
  rw [List.all_eq_true] at hd ⊢
  intro c hc
  simp only [pad, data_mk, List.mem_append] at hc
  rcases hc with hc | hc
  · rw [List.eq_of_mem_replicate hc]
    decide
  · exact hd c hc

lemma formatCompact_length {ts : Timestamp} (hy : ts.year ≤ 9999)
    (hm : ts.month ≤ 99) (hd : ts.day ≤ 99) (hh : ts.hour ≤ 99)
    (hmin : ts.minute ≤ 99) (hs : ts.second ≤ 99) :
    (formatCompact ts).length = 14 := by
  simp [formatCompact, String.length_append, pad4_length hy,
    pad2_length hm, pad2_length hd, pad2_length hh, pad2_length hmin,
    pad2_length hs]

lemma formatCompact_digits (ts : Timestamp) :
    (formatCompact ts).data.all Char.isDigit = true := by
  simp [formatCompact, String.data_append, List.all_append, pad_all_digit]

lemma formatDateCompact_length {ts : Timestamp} (hy : ts.year ≤ 9999)
    (hm : ts.month ≤ 99) (hd : ts.day ≤ 99) :
    (formatDateCompact ts).length = 8 := by
  simp [formatDateCompact, String.length_append, pad4_length hy,
    pad2_length hm, pad2_length hd]

lemma splitAux_no_sep (sep : Char) (l : List Char) :
    ∀ acc, (∀ c ∈ l, c ≠ sep) →
    splitAux sep l acc = [String.mk (acc.reverse ++ l)] := by
  induction l with
  | nil =>
    intro acc _
    simp [splitAux]
  | cons c rest ih =>
    intro acc h
    have hc : ¬ c = sep := h c (by simp)
    simp only [splitAux, if_neg hc]
    rw [ih (c :: acc) (fun x hx => h x (by simp [hx]))]
    simp

lemma splitAux_dataUri (rest : List Char) :
    splitAux ',' (("data:image/png;base64,").data ++ rest) [] =
      "data:image/png;base64" :: splitAux ',' rest [] := by
  rfl

lemma extract_dataUri {payload : String}
    (hnc : ∀ c ∈ payload.data, c ≠ ',') :
    extractSignaturePayload ("data:image/png;base64," ++ payload) =
      some payload := by
  unfold extractSignaturePayload pythonSplit
  rw [String.data_append, splitAux_dataUri,
    splitAux_no_sep ',' payload.data [] hnc]
  simp [mk_data]

lemma extract_no_comma {sig : String} (hnc : ∀ c ∈ sig.data, c ≠ ',') :
    extractSignaturePayload sig = none := by
  unfold extractSignaturePayload pythonSplit
  rw [splitAux_no_sep ',' sig.data [] hnc]
  rfl

lemma b64Keep_ne_comma {c : Char} (h : b64Keep c = true) : c ≠ ',' := by
  intro hc
  subst hc
  revert h
  decide

lemma renderErrs_mentions {l : List String} {a : String} (h : a ∈ l) :
    ∃ p q, renderErrs l = p ++ (a ++ q) := by
  induction l with
  | nil => simp at h
  | cons b rest ih =>
    rcases List.mem_cons.mp h with h | h
    · subst h
      exact ⟨"", "; " ++ renderErrs rest,
        by simp [renderErrs, String.append_assoc]⟩
    · rcases ih h with ⟨p, q, hpq⟩
      exact ⟨b ++ "; " ++ p, q,
        by simp [renderErrs, hpq, String.append_assoc]⟩

lemma validate_ok_fieldOk {body : List (String × JValue)}
    {d : PassportDeclaration} (h : validate body = Except.ok d) :
    ∀ name ∈ requiredFields, fieldOk body name = true := by
  intro name hn
  by_contra hf
  have hf' : fieldOk body name = false := by
    cases hfo : fieldOk body name
    · rfl
    · exact absurd hfo hf
  have hmem : name ∈ requiredFields.filter (fun n => !(fieldOk body n)) :=
    List.mem_filter.mpr ⟨hn, by simp [hf']⟩
  have hne : (requiredFields.filter (fun n => !(fieldOk body n))).isEmpty
      = false := by
    cases hE : (requiredFields.filter (fun n => !(fieldOk body n))).isEmpty
    · rfl
    · rw [List.isEmpty_iff.mp hE] at hmem
      simp at hmem
  unfold validate at h
  rw [if_neg (by simp [hne])] at h
  exact absurd h (by simp)

lemma fieldOk_lookup {body : List (String × JValue)} {name : String}
    (h : fieldOk body name = true) :
    ∃ v, lookupJ body name = some (JValue.s v) := by
  unfold fieldOk at h
  cases hl : lookupJ body name with
  | none => rw [hl] at h; simp at h
  | some j =>
    cases j with
    | s v => exact ⟨v, rfl⟩
    | num n => rw [hl] at h; simp at h
    | obj fs => rw [hl] at h; simp at h

lemma validate_error_of_badField {body : List (String × JValue)}
    {name : String} (hn : name ∈ requiredFields)
    (hf : fieldOk body name = false) :
    validate body =
      Except.error (requiredFields.filter (fun n => !(fieldOk body n))) ∧
    name ∈ requiredFields.filter (fun n => !(fieldOk body n)) := by
  have hmem : name ∈ requiredFields.filter (fun n => !(fieldOk body n)) :=
    List.mem_filter.mpr ⟨hn, by simp [hf]⟩
  refine ⟨?_, hmem⟩
  unfold validate
  rw [if_neg]
  intro hE
  rw [List.isEmpty_iff.mp hE] at hmem
  simp at hmem

lemma append_mid_inj {p q a b : String} (h : p ++ a ++ q = p ++ b ++ q) :
    a = b := by
  have hd := congrArg String.data h
  simp only [String.data_append] at hd
  have h3 : a.data = b.data := by
    simpa using hd
  exact string_eq_of_data h3

lemma parseYear4_digits {a b c d : Nat} (ha : a < 10) (hb : b < 10)
    (hc : c < 10) (hd : d < 10) (rest : List Char) :
    parseYear4 (digitChar a :: digitChar b :: digitChar c ::
        digitChar d :: rest) =
      some (1000 * a + 100 * b + 10 * c + d, rest) := by
  simp [parseYear4, digitChar_isDigit, digitVal_digitChar ha,
    digitVal_digitChar hb, digitVal_digitChar hc, digitVal_digitChar hd]

lemma parseMonth_pad {m : Nat} (h1 : 1 ≤ m) (h2 : m ≤ 12)
    (rest : List Char) :
    parseMonth (digitChar (m / 10) :: digitChar (m % 10) :: rest) =
      some (m, rest) := by
  interval_cases m <;> rfl

lemma parseDay_pad {d : Nat} (h1 : 1 ≤ d) (h2 : d ≤ 31)
    (rest : List Char) :
    parseDay (digitChar (d / 10) :: digitChar (d % 10) :: rest) =
      some (d, rest) := by
  interval_cases d <;> rfl

lemma strptime_iso {y m d : Nat} (hy1 : 1 ≤ y) (hy : y ≤ 9999)
    (hm1 : 1 ≤ m) (hm : m ≤ 12) (hd1 : 1 ≤ d)
    (hd : d ≤ daysInMonth y m) :
    strptimeYMD (isoDateString y m d) = some (y, m, d) := by
  have hdle : d ≤ 31 := by
    have : daysInMonth y m ≤ 31 := by
      unfold daysInMonth
      repeat' split
      all_goals omega
    omega
  have hv : 1000 * (y / 1000 % 10) + 100 * (y / 100 % 10) +
      10 * (y / 10 % 10) + y % 10 = y := by omega
  unfold strptimeYMD isoDateString
  rw [data_mk]
  rw [parseYear4_digits (by omega) (by omega) (by omega) (by omega)]
  simp only []
  rw [parseMonth_pad hm1 hm]
  simp only []
  rw [parseDay_pad hd1 hdle]
  simp only []
  rw [hv, if_pos ⟨trivial, hy1, hd1, hd⟩]

/-- A request body whose 11 fields are all present and all the empty
string. -/
def emptyFieldsBody : List (String × JValue) :=
  [("date", JValue.s ""), ("designation", JValue.s ""),
   ("joiningDate", JValue.s ""), ("nationality", JValue.s ""),
   ("passportNumber", JValue.s ""), ("issueLocation", JValue.s ""),
   ("issueDate", JValue.s ""), ("expiryDate", JValue.s ""),
   ("employeeName", JValue.s ""), ("employeeCode", JValue.s ""),
   ("signature", JValue.s "")]

/-- The record the validator builds from `emptyFieldsBody`. -/
def emptyDecl : PassportDeclaration :=
  ⟨"", "", "", "", "", "", "", "", "", "", ""⟩

/-- A fully populated, well-formed request body. -/
def sampleBody : List (String × JValue) :=
  [("date", JValue.s "2024-03-05"), ("designation", JValue.s "Engineer"),
   ("joiningDate", JValue.s "2024-01-10"), ("nationality", JValue.s "PK"),
   ("passportNumber", JValue.s "AB123456"),
   ("issueLocation", JValue.s "Dubai"),
   ("issueDate", JValue.s "2020-05-01"),
   ("expiryDate", JValue.s "2030-05-01"),
   ("employeeName", JValue.s "Test Person"),
   ("employeeCode", JValue.s "E123"),
   ("signature", JValue.s "data:image/png;base64,QUJD")]

/-- The record the validator builds from `sampleBody`. -/
def sampleDecl : PassportDeclaration :=
  ⟨"2024-03-05", "Engineer", "2024-01-10", "PK", "AB123456", "Dubai",
   "2020-05-01", "2030-05-01", "Test Person", "E123",
   "data:image/png;base64,QUJD"⟩

/-- A sample `uuid4().hex` value (32 lowercase hex characters). -/
def sampleHex : String := "0123456789abcdef0123456789abcdef"

/-- A sample wall-clock instant. -/
def sampleTs : Timestamp := ⟨2024, 3, 5, 10, 2, 9⟩

/-- `sampleBody` with the `date` field replaced by a marker value that
occurs nowhere else, to test whether responses echo the input. -/
def uniqueBody : List (String × JValue) :=
  [("date", JValue.s "1999-UNIQUE-DATE"),
   ("designation", JValue.s "Engineer"),
   ("joiningDate", JValue.s "2024-01-10"), ("nationality", JValue.s "PK"),
   ("passportNumber", JValue.s "AB123456"),
   ("issueLocation", JValue.s "Dubai"),
   ("issueDate", JValue.s "2020-05-01"),
   ("expiryDate", JValue.s "2030-05-01"),
   ("employeeName", JValue.s "Test Person"),
   ("employeeCode", JValue.s "E123"),
   ("signature", JValue.s "data:image/png;base64,QUJD")]

/-- A store holding one generated file, for retrieval fixtures. -/
def oneFileStore : Store :=
  emptyStore.write "pdf_files/passport_declaration_E123_01234567.pdf" [1]

/-- C1 counterexample: a submission whose 11 fields are all the empty
string is accepted by the validator (it builds the all-empty record),
and the template-variant pipeline then proceeds all the way to a 200
success — refuting the claim that an empty field is rejected at
validation time. -/
theorem C1_counterexample :
    validate emptyFieldsBody = Except.ok emptyDecl ∧
    emptyDecl.date = "" ∧
    (submitTemplate emptyStore emptyFieldsBody sampleHex
      ⟨false, [37, 80, 68, 70]⟩).fst.status = 200 := by
  refine ⟨by rfl, rfl, by decide⟩

/-- C1 (amended): every request body the validator accepts has all 11
fields present with string values; emptiness is not checked (the
counterexample shows empty strings are accepted). -/
theorem C1_accepted_fields_present
    (body : List (String × JValue)) (d : PassportDeclaration)
    (h : validate body = Except.ok d) :
    ∀ name ∈ requiredFields, ∃ v, lookupJ body name = some (JValue.s v) := by
  intro name hn
  exact fieldOk_lookup (validate_ok_fieldOk h name hn)

/-- Witness for C1's amended theorem at a concrete accepted body. -/
theorem C1_accepted_fields_present_witness :
    ∃ v, lookupJ sampleBody "date" = some (JValue.s v) :=
  C1_accepted_fields_present sampleBody sampleDecl (by rfl) "date"
    (by decide)

/-- C2 (amended): a validation failure leaves the store unchanged in
both variants; in the structured variant every failure — signature
split, base64 decode, and `doc.build` itself — leaves the store
unchanged, since ReportLab writes the output file only after a
successful build; but when the template variant's PDF engine reports
an error, the output file has already been created and remains on disk
with whatever the engine wrote. -/
theorem C2_failure_state :
    (∀ store body hex pisa errs, validate body = Except.error errs →
      (submitTemplate store body hex pisa).snd = store) ∧
    (∀ store body ts build errs, validate body = Except.error errs →
      (routeStructured store body ts build).snd = store) ∧
    (∀ store form ts build, extractSignaturePayload form.signature = none →
      (createPassport store form ts build).snd = store) ∧
    (∀ store form ts build payload,
      extractSignaturePayload form.signature = some payload →
      b64decode payload = none →
      (createPassport store form ts build).snd = store) ∧
    (∀ store form ts msg,
      (createPassport store form ts (BuildOutcome.fail msg)).snd = store) ∧
    (∀ store body hex bytes decl, validate body = Except.ok decl →
      (submitTemplate store body hex ⟨true, bytes⟩).snd =
        store.write ("pdf_files/" ++ templateFilename decl.employeeCode hex)
          bytes) := by
  refine ⟨?_, ?_, ?_, ?_, ?_, ?_⟩
  · intro store body hex pisa errs h
    simp [submitTemplate, h]
  · intro store body ts build errs h
    simp [routeStructured, h]
  · intro store form ts build h
    simp [createPassport, h]
  · intro store form ts build payload hx hb
    simp [createPassport, hx, hb]
  · intro store form ts msg
    cases hx : extractSignaturePayload form.signature with
    | none => simp [createPassport, hx]
    | some payload =>
      cases hb : b64decode payload with
      | none => simp [createPassport, hx, hb]
      | some sig => simp [createPassport, hx, hb]
  · intro store body hex bytes decl h
    simp [submitTemplate, h]

/-- Witness for C2's amended theorem: a validation failure on the empty
body leaves the empty store unchanged. -/
theorem C2_failure_state_witness :
    (submitTemplate emptyStore [] sampleHex ⟨false, []⟩).snd = emptyStore :=
  C2_failure_state.1 emptyStore [] sampleHex ⟨false, []⟩
    (requiredFields.filter (fun n => !(fieldOk [] n))) (by rfl)

/-- C2 counterexample: when the template variant's PDF engine reports
an error on a valid submission, the handler answers 500 but the output
file (here empty) has been created in the output directory — the file
store did not stay unchanged. -/
theorem C2_counterexample :
    emptyStore.look "pdf_files/passport_declaration_E123_01234567.pdf" =
      none ∧
    (submitTemplate emptyStore sampleBody sampleHex ⟨true, []⟩).fst.status
      = 500 ∧
    (submitTemplate emptyStore sampleBody sampleHex ⟨true, []⟩).snd.look
      "pdf_files/passport_declaration_E123_01234567.pdf" = some [] := by
  refine ⟨by decide, by decide, by decide⟩

/-- C3: the structured variant splits the signature at commas and takes
index 1, so for any well-formed `data:image/png;base64,<payload>` with
a base64-alphabet payload it extracts exactly the payload and the
decode succeeds; and for any comma-free signature the indexing fails,
which `create_passport` surfaces as a deterministic 500 error with the
store untouched. -/
theorem C3_signature_decode :
    (∀ payload : String, payload.data.all b64Keep = true →
      (b64decode payload).isSome = true →
      extractSignaturePayload ("data:image/png;base64," ++ payload) =
        some payload ∧ ∃ bs, b64decode payload = some bs) ∧
    (∀ sig : String, (∀ c ∈ sig.data, c ≠ ',') →
      extractSignaturePayload sig = none) ∧
    (∀ store form ts build, (∀ c ∈ form.signature.data, c ≠ ',') →
      createPassport store form ts build =
        (Response.error 500 "list index out of range", store)) := by
  refine ⟨?_, ?_, ?_⟩
  · intro payload hall hsome
    have hnc : ∀ c ∈ payload.data, c ≠ ',' := by
      intro c hc
      exact b64Keep_ne_comma (List.all_eq_true.mp hall c hc)
    exact ⟨extract_dataUri hnc, Option.isSome_iff_exists.mp hsome⟩
  · intro sig hnc
    exact extract_no_comma hnc
  · intro store form ts build hnc
    simp [createPassport, extract_no_comma hnc]

/-- Witness for C3 at a concrete well-formed data URI and a concrete
comma-free signature. -/
theorem C3_signature_decode_witness :
    (extractSignaturePayload ("data:image/png;base64," ++ "QUJD") =
      some "QUJD" ∧ ∃ bs, b64decode "QUJD" = some bs) ∧
    extractSignaturePayload "nocomma" = none :=
  ⟨C3_signature_decode.1 "QUJD" (by decide) (by decide),
   C3_signature_decode.2.1 "nocomma" (by decide)⟩

/-- C4: `format_date` maps every zero-padded ISO date with a valid
in-range calendar day to the long form `"DD MonthName, YYYY"`, maps
every string `strptime` cannot parse to itself, and in particular maps
`"2024-03-05"` to `"05 March, 2024"` and `"not-a-date"` to itself; it
is a total function, so it never raises. -/
theorem C4_format_date :
    (∀ y m d : Nat, 1 ≤ y → y ≤ 9999 → 1 ≤ m → m ≤ 12 → 1 ≤ d →
      d ≤ daysInMonth y m →
      format_date (isoDateString y m d) = formatLong y m d) ∧
    (∀ s : String, strptimeYMD s = none → format_date s = s) ∧
    format_date "2024-03-05" = "05 March, 2024" ∧
    format_date "not-a-date" = "not-a-date" := by
  refine ⟨?_, ?_, by decide, by decide⟩
  · intro y m d hy1 hy hm1 hm hd1 hd
    unfold format_date
    rw [strptime_iso hy1 hy hm1 hm hd1 hd]
  · intro s hs
    unfold format_date
    rw [hs]

/-- Witness for C4 at the concrete date 2024-03-05. -/
theorem C4_format_date_witness :
    format_date (isoDateString 2024 3 5) = formatLong 2024 3 5 :=
  C4_format_date.1 2024 3 5 (by decide) (by decide) (by decide)
    (by decide) (by decide) (by decide)

/-- C5 counterexample: two distinct submissions (different rendered
bytes) with the same employee code handled in the same second receive
the same structured-variant filename; both report success, and the
second write overwrites the first generated PDF. -/
theorem C5_counterexample :
    structuredFilename "E123" sampleTs = structuredFilename "E123" sampleTs ∧
    (routeStructured emptyStore sampleBody sampleTs
      (BuildOutcome.ok [1])).fst.status = 200 ∧
    (routeStructured (routeStructured emptyStore sampleBody sampleTs
        (BuildOutcome.ok [1])).snd sampleBody sampleTs
      (BuildOutcome.ok [2])).fst.status = 200 ∧
    (routeStructured emptyStore sampleBody sampleTs
        (BuildOutcome.ok [1])).snd.look
      "pdf_output/passport_E123_20240305100209.pdf" = some [1] ∧
    (routeStructured (routeStructured emptyStore sampleBody sampleTs
        (BuildOutcome.ok [1])).snd sampleBody sampleTs
      (BuildOutcome.ok [2])).snd.look
      "pdf_output/passport_E123_20240305100209.pdf" = some [2] := by
  refine ⟨rfl, by decide, by decide, by decide, by decide⟩

/-- C5 (amended): for a fixed employee code, generated filenames are
distinct exactly when the uniqueness tokens differ — the formatted
second-resolution timestamp in the structured variant, the first 8
characters of `uuid4().hex` in the template variant; equal tokens give
the same filename (and hence, per the counterexample, an overwrite). -/
theorem C5_filename_distinct_iff_token_distinct
    (code : String) (t1 t2 : Timestamp) (h1 h2 : String) :
    (structuredFilename code t1 = structuredFilename code t2 ↔
      formatCompact t1 = formatCompact t2) ∧
    (templateFilename code h1 = templateFilename code h2 ↔
      h1.data.take 8 = h2.data.take 8) := by
  constructor
  · constructor
    · intro h
      simp only [structuredFilename] at h
      exact append_mid_inj h
    · intro h
      simp [structuredFilename, h]
  · constructor
    · intro h
      simp only [templateFilename] at h
      have hmk := append_mid_inj h
      have hd := congrArg String.data hmk
      simpa [data_mk] using hd
    · intro h
      simp [templateFilename, h]

/-- C6 counterexample: a body missing every field fails validation in
the template variant, but the error is surfaced with status 500, which
is not a client error (4xx) — refuting the claim that validation
failures surface as 4xx. -/
theorem C6_counterexample :
    lookupJ ([] : List (String × JValue)) "date" = none ∧
    (submitTemplate emptyStore [] sampleHex ⟨false, []⟩).fst.status = 500 ∧
    ¬ is4xx (submitTemplate emptyStore [] sampleHex ⟨false, []⟩).fst.status
    := by
  refine ⟨rfl, by decide, by decide⟩

/-- C6 (amended): a missing or mistyped field makes validation fail
with an error naming the offending field; the structured variant
surfaces it as a 422 client error and the template variant as a 500
server error, in both cases with the store unchanged and the offending
field's name in the error detail. -/
theorem C6_validation_error_surfacing
    (body : List (String × JValue)) (name : String)
    (hn : name ∈ requiredFields) (hf : fieldOk body name = false) :
    ∃ errs, validate body = Except.error errs ∧ name ∈ errs ∧
      (∀ store ts build, routeStructured store body ts build =
        (Response.error 422 (renderErrs errs), store)) ∧
      (∀ store hex pisa, submitTemplate store body hex pisa =
        (Response.error 500 ("Error generating PDF: " ++ renderErrs errs),
          store)) ∧
      ∃ p q, renderErrs errs = p ++ (name ++ q) := by
  obtain ⟨hval, hmem⟩ := validate_error_of_badField hn hf
  refine ⟨_, hval, hmem, ?_, ?_, renderErrs_mentions hmem⟩
  · intro store ts build
    simp [routeStructured, hval]
  · intro store hex pisa
    simp [submitTemplate, hval]

/-- Witness for C6's amended theorem on the empty body and the missing
`date` field. -/
theorem C6_validation_error_surfacing_witness :
    ∃ errs, validate ([] : List (String × JValue)) = Except.error errs ∧
      "date" ∈ errs ∧
      (∀ store ts build, routeStructured store [] ts build =
        (Response.error 422 (renderErrs errs), store)) ∧
      (∀ store hex pisa, submitTemplate store [] hex pisa =
        (Response.error 500 ("Error generating PDF: " ++ renderErrs errs),
          store)) ∧
      ∃ p q, renderErrs errs = p ++ ("date" ++ q) :=
  C6_validation_error_surfacing [] "date" (by decide) (by decide)

/-- C7: `/download/{filename}` and `/view/{filename}` answer 404
exactly when the file is absent from the output directory; when it is
present they return exactly the stored bytes with the fixed
`application/pdf` media type, and — the store being unchanged by
reads — any two requests for the same existing file get equal
responses. -/
theorem C7_retrieval (store : Store) (filename : String) (now : Timestamp) :
    ((download_pdf store filename now).status = 404 ↔
      store.look ("pdf_files/" ++ filename) = none) ∧
    ((view_pdf store filename).status = 404 ↔
      store.look ("pdf_files/" ++ filename) = none) ∧
    (∀ b, store.look ("pdf_files/" ++ filename) = some b →
      download_pdf store filename now =
        Response.file b "application/pdf" (some (downloadDisplayName now)) ∧
      view_pdf store filename = Response.file b "application/pdf" none) ∧
    (∀ r1 r2, r1 = download_pdf store filename now →
      r2 = download_pdf store filename now → r1 = r2) := by
  refine ⟨?_, ?_, ?_, ?_⟩
  · cases hl : store.look ("pdf_files/" ++ filename) <;>
      simp [download_pdf, hl, Response.status]
  · cases hl : store.look ("pdf_files/" ++ filename) <;>
      simp [view_pdf, hl, Response.status]
  · intro b hl
    exact ⟨by simp [download_pdf, hl], by simp [view_pdf, hl]⟩
  · intro r1 r2 e1 e2
    rw [e1, e2]

/-- Witness for C7 on a store holding one generated file. -/
theorem C7_retrieval_witness :
    download_pdf oneFileStore "passport_declaration_E123_01234567.pdf"
        sampleTs =
      Response.file [1] "application/pdf"
        (some (downloadDisplayName sampleTs)) ∧
    view_pdf oneFileStore "passport_declaration_E123_01234567.pdf" =
      Response.file [1] "application/pdf" none :=
  (C7_retrieval oneFileStore "passport_declaration_E123_01234567.pdf"
    sampleTs).2.2.1 [1] (by decide)

/-- C8: generated files land under the variant's fixed output
directory with exactly the specified shapes — the structured variant
writes `pdf_output/passport_<code>_<token>.pdf` with a 14-digit
`YYYYMMDDHHMMSS` token, the template variant writes
`pdf_files/passport_declaration_<code>_<token>.pdf` with the token the
first 8 characters of the 32-character lowercase-hex `uuid4().hex`. -/
theorem C8_stored_names :
    (∀ code ts, ts.year ≤ 9999 → ts.month ≤ 12 → ts.day ≤ 31 →
      ts.hour ≤ 23 → ts.minute ≤ 59 → ts.second ≤ 59 →
      structuredFilename code ts =
        "passport_" ++ code ++ "_" ++ formatCompact ts ++ ".pdf" ∧
      (formatCompact ts).length = 14 ∧
      (formatCompact ts).data.all Char.isDigit = true) ∧
    (∀ code hex, hex.length = 32 → hex.data.all isHexLower = true →
      templateFilename code hex = "passport_declaration_" ++ code ++ "_" ++
        String.mk (hex.data.take 8) ++ ".pdf" ∧
      (String.mk (hex.data.take 8)).length = 8 ∧
      (hex.data.take 8).all isHexLower = true) ∧
    (∀ store form ts bytes payload sig,
      extractSignaturePayload form.signature = some payload →
      b64decode payload = some sig →
      (createPassport store form ts (BuildOutcome.ok bytes)).snd =
        store.write
          ("pdf_output/" ++ structuredFilename form.employeeCode ts)
          bytes) ∧
    (∀ store body hex decl bytes, validate body = Except.ok decl →
      (submitTemplate store body hex ⟨false, bytes⟩).snd =
        store.write
          ("pdf_files/" ++ templateFilename decl.employeeCode hex)
          bytes) := by
  refine ⟨?_, ?_, ?_, ?_⟩
  · intro code ts hy hm hd hh hmin hs
    refine ⟨rfl, formatCompact_length hy (by omega) (by omega) (by omega)
      (by omega) (by omega), formatCompact_digits ts⟩
  · intro code hex hlen hall
    refine ⟨rfl, ?_, ?_⟩
    · rw [length_mk, List.length_take, data_length, hlen]
      omega
    · rw [List.all_eq_true] at hall ⊢
      intro c hc
      exact hall c (List.take_subset 8 hex.data hc)
  · intro store form ts bytes payload sig hx hb
    simp [createPassport, hx, hb]
  · intro store body hex decl bytes h
    simp [submitTemplate, h]

/-- Witness for C8 at a concrete timestamp and uuid hex. -/
theorem C8_stored_names_witness :
    (structuredFilename "E123" sampleTs =
      "passport_" ++ "E123" ++ "_" ++ formatCompact sampleTs ++ ".pdf" ∧
     (formatCompact sampleTs).length = 14 ∧
     (formatCompact sampleTs).data.all Char.isDigit = true) ∧
    (templateFilename "E123" sampleHex =
      "passport_declaration_" ++ "E123" ++ "_" ++
        String.mk (sampleHex.data.take 8) ++ ".pdf" ∧
     (String.mk (sampleHex.data.take 8)).length = 8 ∧
     (sampleHex.data.take 8).all isHexLower = true) :=
  ⟨C8_stored_names.1 "E123" sampleTs (by decide) (by decide) (by decide)
    (by decide) (by decide) (by decide),
   C8_stored_names.2.1 "E123" sampleHex (by decide) (by decide)⟩

/-- C9 counterexample: a successful template-variant submission whose
`date` field carries a marker value answers 200, yet no string of the
response equals that marker — the template variant's success response
does not echo the submitted input fields. -/
theorem C9_counterexample :
    lookupJ uniqueBody "date" = some (JValue.s "1999-UNIQUE-DATE") ∧
    (submitTemplate emptyStore uniqueBody sampleHex
      ⟨false, [37, 80, 68, 70]⟩).fst.status = 200 ∧
    responseMentions "1999-UNIQUE-DATE"
      (submitTemplate emptyStore uniqueBody sampleHex
        ⟨false, [37, 80, 68, 70]⟩).fst = false := by
  refine ⟨rfl, by decide, by decide⟩

/-- C9 (amended): the structured variant's success response echoes the
submitted fields (`data = form.dict()`) alongside the generated pdf
path; the template variant's success response carries the generated
filename and `download_url`/`view_url` relative links but no echo of
the input fields. -/
theorem C9_success_response_contents :
    (∀ store form ts bytes payload sig,
      extractSignaturePayload form.signature = some payload →
      b64decode payload = some sig →
      (createPassport store form ts (BuildOutcome.ok bytes)).fst =
        Response.ok (JValue.obj
          [("message",
            JValue.s "Form data received and professional PDF generated"),
           ("data", declToJson form),
           ("pdf_file", JValue.s
             ("pdf_output/" ++ structuredFilename form.employeeCode ts))]))
    ∧
    (∀ store body hex decl bytes, validate body = Except.ok decl →
      (submitTemplate store body hex ⟨false, bytes⟩).fst =
        Response.ok (JValue.obj
          [("message",
            JValue.s "Passport declaration submitted successfully"),
           ("pdf_file", JValue.s (templateFilename decl.employeeCode hex)),
           ("download_url", JValue.s
             ("/download/" ++ templateFilename decl.employeeCode hex)),
           ("view_url", JValue.s
             ("/view/" ++ templateFilename decl.employeeCode hex))])) := by
  constructor
  · intro store form ts bytes payload sig hx hb
    simp [createPassport, hx, hb]
  · intro store body hex decl bytes hv
    simp [submitTemplate, hv]

/-- Witness for C9's amended theorem at concrete submissions. -/
theorem C9_success_response_contents_witness :
    (createPassport emptyStore sampleDecl sampleTs
        (BuildOutcome.ok [37])).fst =
      Response.ok (JValue.obj
        [("message",
          JValue.s "Form data received and professional PDF generated"),
         ("data", declToJson sampleDecl),
         ("pdf_file", JValue.s
           ("pdf_output/" ++
             structuredFilename sampleDecl.employeeCode sampleTs))]) ∧
    (submitTemplate emptyStore sampleBody sampleHex ⟨false, [37]⟩).fst =
      Response.ok (JValue.obj
        [("message",
          JValue.s "Passport declaration submitted successfully"),
         ("pdf_file", JValue.s
           (templateFilename sampleDecl.employeeCode sampleHex)),
         ("download_url", JValue.s
           ("/download/" ++ templateFilename sampleDecl.employeeCode
             sampleHex)),
         ("view_url", JValue.s
           ("/view/" ++ templateFilename sampleDecl.employeeCode
             sampleHex))]) :=
  ⟨C9_success_response_contents.1 emptyStore sampleDecl sampleTs [37]
    "QUJD" [65, 66, 67] (by rfl) (by rfl),
   C9_success_response_contents.2 emptyStore sampleBody sampleHex
    sampleDecl [37] (by rfl)⟩

/-- C10: the download attachment's display name is always
`passport_declaration_<YYYYMMDD>.pdf` computed from the current date
only — independent of the requested stored filename, so all files
downloaded the same day share one display name — and it never equals a
stored template-variant filename. -/
theorem C10_download_display_name :
    (∀ store f now b n, download_pdf store f now =
        Response.file b "application/pdf" (some n) →
      n = downloadDisplayName now) ∧
    (∀ s1 s2 f1 f2 now b1 b2 n1 n2,
      download_pdf s1 f1 now = Response.file b1 "application/pdf" (some n1) →
      download_pdf s2 f2 now = Response.file b2 "application/pdf" (some n2) →
      n1 = n2) ∧
    (∀ now code hex, now.year ≤ 9999 → now.month ≤ 12 → now.day ≤ 31 →
      8 ≤ hex.length →
      templateFilename code hex ≠ downloadDisplayName now) := by
  have hname : ∀ store f now b n, download_pdf store f now =
      Response.file b "application/pdf" (some n) →
      n = downloadDisplayName now := by
    intro store f now b n h
    unfold download_pdf at h
    cases hl : store.look ("pdf_files/" ++ f) with
    | none => rw [hl] at h; exact absurd h (by simp)
    | some b2 =>
      rw [hl] at h
      have := (Response.file.injEq _ _ _ _ _ _).mp h
      have h2 := this.2.2
      exact (Option.some.injEq _ _).mp h2.symm
  refine ⟨hname, ?_, ?_⟩
  · intro s1 s2 f1 f2 now b1 b2 n1 n2 e1 e2
    rw [hname s1 f1 now b1 n1 e1, hname s2 f2 now b2 n2 e2]
  · intro now code hex hy hm hd hhex heq
    have hlen := congrArg String.length heq
    have l1 : ("passport_declaration_" : String).length = 21 := rfl
    have l2 : ("_" : String).length = 1 := rfl
    have l3 : (".pdf" : String).length = 4 := rfl
    have l4 : (formatDateCompact now).length = 8 :=
      formatDateCompact_length hy (by omega) (by omega)
    have l5 : (String.mk (hex.data.take 8)).length = 8 := by
      rw [length_mk, List.length_take, data_length]
      omega
    simp only [templateFilename, downloadDisplayName,
      String.length_append, l1, l2, l3, l4, l5] at hlen
    omega

/-- Witness for C10 at a concrete download and a concrete stored
filename. -/
theorem C10_download_display_name_witness :
    downloadDisplayName sampleTs = downloadDisplayName sampleTs ∧
    templateFilename "E123" sampleHex ≠ downloadDisplayName sampleTs :=
  ⟨C10_download_display_name.1 oneFileStore
      "passport_declaration_E123_01234567.pdf" sampleTs [1]
      (downloadDisplayName sampleTs) (by rfl),
   C10_download_display_name.2.2 sampleTs "E123" sampleHex (by decide)
      (by decide) (by decide) (by decide)⟩

end PassportITS

